import Mathlib

/-!
Verification of the grid analysis engine of hydrology.py.

Grids are modelled as a shape together with a cell lookup function; float
arithmetic is idealized as exact rational arithmetic, and NaN cells of an
elevation window are modelled as Option none.  Elementwise numpy
operations are modelled with their two-dimensional broadcasting rule, so
that shape handling of the source is preserved exactly.
-/

namespace FloodRisk

/-- A two-dimensional numpy array with element type α: a shape together
with a total cell lookup function.  Cells outside the shape carry no
meaning; every statement below quantifies only over in-range cells. -/
structure Grid (α : Type) where
  rows : ℕ
  cols : ℕ
  val : ℕ → ℕ → α

/-- Shape of a grid, as the pair (rows, cols). -/
def Grid.shape {α : Type} (g : Grid α) : ℕ × ℕ := (g.rows, g.cols)

/-- Build a grid from a list of rows, with a default for out-of-range
lookups. -/
def Grid.ofRows {α : Type} (d : α) (l : List (List α)) : Grid α :=
  ⟨l.length, (l.headD []).length, fun i j => (l.getD i []).getD j d⟩

/-- Result extent of numpy broadcasting along one axis. -/
def bdim (a b : ℕ) : Option ℕ :=
  if a = b then some a else if a = 1 then some b else if b = 1 then some a else none

/-- Index into an array of extent d when it is broadcast to a larger
extent: an axis of extent 1 is read at 0 everywhere. -/
def bIdx (d i : ℕ) : ℕ := if d = 1 then 0 else i

/-- Elementwise binary operation with numpy two-dimensional broadcasting;
none models the ValueError numpy raises on incompatible shapes. -/
def broadcast2 {α β γ : Type} (f : α → β → γ) (A : Grid α) (B : Grid β) :
    Option (Grid γ) := do
  let R ← bdim A.rows B.rows
  let C ← bdim A.cols B.cols
  pure ⟨R, C, fun i j =>
    f (A.val (bIdx A.rows i) (bIdx A.cols j)) (B.val (bIdx B.rows i) (bIdx B.cols j))⟩

/-- Elementwise unary operation on a grid. -/
def gMap {α β : Type} (f : α → β) (A : Grid α) : Grid β :=
  ⟨A.rows, A.cols, fun i j => f (A.val i j)⟩

/-- Denominator of the SCS-CN runoff formula, including the 1e-6 guard
added by the source. -/
def scsDenom (p s : ℚ) : ℚ := p + 0.8 * s + 1e-6

/-- compute_runoff of hydrology.py, lines 12-32.  Step by step:
degenerate marks cells with cn_map <= 0 or mask == 0; cnEff is the
np.where replacing those cells of cn_map by 1e-6; pEff is the np.where
zeroing precipitation at mask == 0; S is the potential retention; t and
valid are the two stages of the valid_mask expression
(precipitation > 0.2 * S) & (mask == 1); the boolean-indexed assignment
into the zeros grid requires the index to have the shape of the indexed
arrays, which is the if-guard; the final result is runoff * mask.
Every elementwise step broadcasts; none models the numpy error. -/
def compute_runoff (precipitation cn_map mask : Grid ℚ) : Option (Grid ℚ) := do
  let degenerate ← broadcast2 (fun cn m => if cn ≤ 0 ∨ m = 0 then (1 : ℚ) else 0) cn_map mask
  let cnEff ← broadcast2 (fun d cn => if d = 1 then (1e-6 : ℚ) else cn) degenerate cn_map
  let pEff ← broadcast2 (fun m p => if m = 0 then (0 : ℚ) else p) mask precipitation
  let S := gMap (fun cn => max (1000 / cn - 10) 0) cnEff
  let t ← broadcast2 (fun p s => if 0.2 * s < p then (1 : ℚ) else 0) pEff S
  let valid ← broadcast2 (fun tv m => if tv = 1 ∧ m = 1 then (1 : ℚ) else 0) t mask
  if valid.shape = pEff.shape ∧ valid.shape = S.shape then
    let runoff : Grid ℚ := ⟨pEff.rows, pEff.cols, fun i j =>
      if valid.val i j = 1 then
        (pEff.val i j - 0.2 * S.val i j) ^ 2 / scsDenom (pEff.val i j) (S.val i j)
      else 0⟩
    broadcast2 (fun r m => r * m) runoff mask
  else none

lemma bIdx_lt {d i : ℕ} (h : i < d) : bIdx d i < d := by
  unfold bIdx; split <;> omega

lemma bIdx_eq_of_lt {d i : ℕ} (h : i < d) : bIdx d i = i := by
  unfold bIdx; split <;> omega

lemma bdim_self (a : ℕ) : bdim a a = some a := by simp [bdim]

lemma someBind {α β : Type} (a : α) (f : α → Option β) : (some a >>= f) = f a := rfl

lemma bIdx_idem (d i : ℕ) : bIdx d (bIdx d i) = bIdx d i := by
  by_cases h : d = 1 <;> simp [bIdx, h]

lemma ite_zero_left_nonneg (c : Prop) [Decidable c] (p : ℚ) (hp : 0 ≤ p) :
    0 ≤ if c then 0 else p := by
  split
  · exact le_refl 0
  · exact hp

lemma scsDenom_pos (p s : ℚ) (hp : 0 ≤ p) (hs : 0 ≤ s) : 0 < scsDenom p s := by
  have h8 : 0 ≤ (0.8 : ℚ) * s := by positivity
  have he : (0 : ℚ) < 1e-6 := by norm_num
  unfold scsDenom; linarith

lemma runoff_cell_nonneg (cond : Prop) [Decidable cond] (x y m : ℚ)
    (hx : 0 ≤ x) (hy : 0 ≤ y) (hm : m = 0 ∨ m = 1) :
    0 ≤ (if cond then (x - 0.2 * y) ^ 2 / scsDenom x y else 0) * m := by
  apply mul_nonneg
  · split
    · exact div_nonneg (sq_nonneg _) (le_of_lt (scsDenom_pos x y hx hy))
    · exact le_refl 0
  · rcases hm with h | h <;> simp [h]

/-- Claim C3: for every finite, non-negative precipitation grid, every
curve-number grid (all-zero or all-negative included) and every 0/1 mask
of the same shape, compute_runoff succeeds and every cell of its output
is non-negative; moreover the denominator guarded by the 1e-6 term is
strictly positive whenever effective precipitation and retention are
non-negative, so no division by zero occurs (finiteness in the exact
rational model). -/
theorem runoff_nonneg_finite (P CN M : Grid ℚ)
    (hcn : CN.shape = P.shape) (hm : M.shape = P.shape)
    (hP : ∀ i, i < P.rows → ∀ j, j < P.cols → 0 ≤ P.val i j)
    (hM : ∀ i, i < P.rows → ∀ j, j < P.cols → M.val i j = 0 ∨ M.val i j = 1) :
    (∀ p s : ℚ, 0 ≤ p → 0 ≤ s → 0 < scsDenom p s) ∧
    ∃ out, compute_runoff P CN M = some out ∧ out.shape = P.shape ∧
      ∀ i, i < out.rows → ∀ j, j < out.cols → 0 ≤ out.val i j := by
  refine ⟨scsDenom_pos, ?_⟩
  obtain ⟨R, C, pv⟩ := P
  obtain ⟨Rc, Cc, cv⟩ := CN
  obtain ⟨Rm, Cm, mv⟩ := M
  simp only [Grid.shape, Prod.mk.injEq] at hcn hm
  obtain ⟨rfl, rfl⟩ := hcn
  obtain ⟨rfl, rfl⟩ := hm
  simp only [compute_runoff, broadcast2, bdim_self, someBind, gMap, Grid.shape,
    Option.pure_def, bIdx_idem, and_self, if_true]
  refine ⟨_, rfl, rfl, ?_⟩
  intro i hi j hj
  have hb1 := bIdx_lt hi
  have hb2 := bIdx_lt hj
  exact runoff_cell_nonneg _ _ _ _
    (ite_zero_left_nonneg _ _ (hP _ hb1 _ hb2)) (le_max_right _ _) (hM _ hb1 _ hb2)

/-- Witness for C3 at the precipitation grid [[0,5],[10,0]], constant
curve number 80 and mask [[1,1],[1,0]]. -/
theorem runoff_nonneg_finite_witness :
    (compute_runoff (Grid.ofRows 0 [[0, 5], [10, 0]]) (Grid.ofRows 0 [[80, 80], [80, 80]])
      (Grid.ofRows 0 [[1, 1], [1, 0]])).isSome = true := by
  obtain ⟨-, out, heq, -, -⟩ := runoff_nonneg_finite
    (Grid.ofRows 0 [[0, 5], [10, 0]]) (Grid.ofRows 0 [[80, 80], [80, 80]])
    (Grid.ofRows 0 [[1, 1], [1, 0]]) (by decide) (by decide) (by decide) (by decide)
  rw [heq]; rfl

/-- Claim C4: wherever the mask is 0, the output of compute_runoff is
exactly 0, because the result is finally multiplied elementwise by the
mask. -/
theorem runoff_sea_cells_zero (P CN M : Grid ℚ)
    (hcn : CN.shape = P.shape) (hm : M.shape = P.shape)
    (i j : ℕ) (hi : i < P.rows) (hj : j < P.cols) (hij : M.val i j = 0) :
    ∃ out, compute_runoff P CN M = some out ∧ out.val i j = 0 := by
  obtain ⟨R, C, pv⟩ := P
  obtain ⟨Rc, Cc, cv⟩ := CN
  obtain ⟨Rm, Cm, mv⟩ := M
  simp only [Grid.shape, Prod.mk.injEq] at hcn hm
  obtain ⟨rfl, rfl⟩ := hcn
  obtain ⟨rfl, rfl⟩ := hm
  simp only [compute_runoff, broadcast2, bdim_self, someBind, gMap, Grid.shape,
    Option.pure_def, bIdx_idem, and_self, if_true]
  refine ⟨_, rfl, ?_⟩
  dsimp only at hi hj hij ⊢
  rw [bIdx_eq_of_lt hi, bIdx_eq_of_lt hj, hij, mul_zero]

/-- Witness for C4 at the cell (1,1) of a 2 by 2 grid whose mask is 0
there. -/
theorem runoff_sea_cells_zero_witness :
    ((compute_runoff (Grid.ofRows 0 [[3, 5], [10, 7]]) (Grid.ofRows 0 [[80, 80], [80, 80]])
      (Grid.ofRows 0 [[1, 1], [1, 0]])).map (fun g => g.val 1 1)) = some 0 := by
  obtain ⟨out, heq, hz⟩ := runoff_sea_cells_zero
    (Grid.ofRows 0 [[3, 5], [10, 7]]) (Grid.ofRows 0 [[80, 80], [80, 80]])
    (Grid.ofRows 0 [[1, 1], [1, 0]]) (by decide) (by decide) 1 1 (by decide) (by decide) (by decide)
  rw [heq, Option.map_some', hz]

/-- Counterexample to claim C5 as stated: compute_runoff performs no
shape check, so a curve-number grid of a different (broadcastable) shape
is accepted and a grid is returned instead of a ShapeMismatch failure. -/
theorem runoff_accepts_mismatched_shapes :
    (Grid.ofRows (0 : ℚ) [[80]]).shape ≠ (Grid.ofRows (0 : ℚ) [[1, 1], [1, 1]]).shape ∧
    (compute_runoff (Grid.ofRows 0 [[1, 1], [1, 1]]) (Grid.ofRows 0 [[80]])
      (Grid.ofRows 0 [[1, 1], [1, 1]])).isSome = true := by
  constructor
  · decide
  · decide

/-- Amended claim C5: the runoff operation performs no explicit shape
validation; whenever the three grids have identical shapes it returns a
grid of that shape (and, as the counterexample shows, differing
broadcast-compatible shapes are also accepted rather than rejected). -/
theorem runoff_no_shape_check (P CN M : Grid ℚ)
    (hcn : CN.shape = P.shape) (hm : M.shape = P.shape) :
    ∃ out, compute_runoff P CN M = some out ∧ out.shape = P.shape := by
  obtain ⟨R, C, pv⟩ := P
  obtain ⟨Rc, Cc, cv⟩ := CN
  obtain ⟨Rm, Cm, mv⟩ := M
  simp only [Grid.shape, Prod.mk.injEq] at hcn hm
  obtain ⟨rfl, rfl⟩ := hcn
  obtain ⟨rfl, rfl⟩ := hm
  simp only [compute_runoff, broadcast2, bdim_self, someBind, gMap, Grid.shape,
    Option.pure_def, bIdx_idem, and_self, if_true]
  exact ⟨_, rfl, rfl⟩

/-- Witness for the amended claim C5 on equal-shaped 1 by 2 grids. -/
theorem runoff_no_shape_check_witness :
    (compute_runoff (Grid.ofRows 0 [[2, 4]]) (Grid.ofRows 0 [[60, -5]])
      (Grid.ofRows 0 [[1, 1]])).isSome = true := by
  obtain ⟨out, heq, -⟩ := runoff_no_shape_check
    (Grid.ofRows 0 [[2, 4]]) (Grid.ofRows 0 [[60, -5]]) (Grid.ofRows 0 [[1, 1]])
    (by decide) (by decide)
  rw [heq]; rfl

/-- D8 neighbor offsets of hydrology.py line 35, in clockwise order
starting northwest: NW, N, NE, E, SE, S, SW, W. -/
def D8_OFFSETS : List (ℤ × ℤ) :=
  [(-1, -1), (-1, 0), (-1, 1), (0, 1), (1, 1), (1, 0), (1, -1), (0, -1)]

/-- D8 direction codes of hydrology.py line 36, bound to D8_OFFSETS
positionally. -/
def D8_VALUES : List ℕ := [128, 1, 2, 4, 8, 16, 32, 64]

/-- Inner update of the neighbor loop, hydrology.py lines 62-65: a
candidate replaces the current minimum exactly when its drop is positive
and strictly below the minimum so far (none models the initial
float inf). -/
def d8Update (diff : ℚ) (code : ℕ) (st : Option ℚ × ℕ) : Option ℚ × ℕ :=
  match st.1 with
  | none => if 0 < diff then (some diff, code) else st
  | some md => if 0 < diff ∧ diff < md then (some diff, code) else st

/-- One iteration of the neighbor loop, hydrology.py lines 57-65: skip
NaN neighbors and neighbors whose mask is not 1, otherwise consider the
drop center - neighbor. -/
def d8Step (w : Grid (Option ℚ)) (m : Grid ℚ) (r c : ℕ) (center : ℚ)
    (st : Option ℚ × ℕ) (p : (ℤ × ℤ) × ℕ) : Option ℚ × ℕ :=
  match w.val ((r : ℤ) + p.1.1).toNat ((c : ℤ) + p.1.2).toNat with
  | none => st
  | some nv =>
      if m.val ((r : ℤ) + p.1.1).toNat ((c : ℤ) + p.1.2).toNat = 1 then
        d8Update (center - nv) p.2 st
      else st

/-- Direction code of one cell, hydrology.py lines 47-67: 0 when the
mask is 0 or the elevation is NaN, otherwise the code held by the loop
state after all 8 neighbors. -/
def flowDirCell (w : Grid (Option ℚ)) (m : Grid ℚ) (r c : ℕ) : ℕ :=
  if m.val r c = 0 then 0
  else
    match w.val r c with
    | none => 0
    | some center =>
        ((D8_OFFSETS.zip D8_VALUES).foldl (d8Step w m r c center) (none, 0)).2

/-- calculate_flow_direction of hydrology.py lines 38-69: the zeros grid
is filled on interior cells only and then sliced to the interior, so the
result is the (rows - 2) by (cols - 2) grid of interior codes. -/
def calculate_flow_direction (w : Grid (Option ℚ)) (m : Grid ℚ) : Grid ℕ :=
  ⟨w.rows - 2, w.cols - 2, fun i j => flowDirCell w m (i + 1) (j + 1)⟩

/-- Candidate descent entry of one neighbor slot, as the claim describes
it: defined exactly when the neighbor elevation is not NaN, its mask is
1 and the drop is strictly positive; the entry is (drop, code). -/
def d8Cand (w : Grid (Option ℚ)) (m : Grid ℚ) (r c : ℕ) (center : ℚ)
    (p : (ℤ × ℤ) × ℕ) : Option (ℚ × ℕ) :=
  match w.val ((r : ℤ) + p.1.1).toNat ((c : ℤ) + p.1.2).toNat with
  | none => none
  | some nv =>
      if m.val ((r : ℤ) + p.1.1).toNat ((c : ℤ) + p.1.2).toNat = 1 ∧ 0 < center - nv then
        some (center - nv, p.2)
      else none

/-- The eligible downslope candidates of a cell, in the clockwise
neighbor order of the source. -/
def d8Candidates (w : Grid (Option ℚ)) (m : Grid ℚ) (r c : ℕ) (center : ℚ) :
    List (ℚ × ℕ) :=
  (D8_OFFSETS.zip D8_VALUES).filterMap (d8Cand w m r c center)

/-- Strict first-minimum selection step over candidate entries. -/
def minStep (st : Option ℚ × ℕ) (x : ℚ × ℕ) : Option ℚ × ℕ :=
  match st.1 with
  | none => (some x.1, x.2)
  | some md => if x.1 < md then (some x.1, x.2) else st

lemma d8Step_eq (w : Grid (Option ℚ)) (m : Grid ℚ) (r c : ℕ) (center : ℚ)
    (st : Option ℚ × ℕ) (p : (ℤ × ℤ) × ℕ) :
    d8Step w m r c center st p =
      match d8Cand w m r c center p with
      | none => st
      | some x => minStep st x := by
  unfold d8Step d8Cand
  cases w.val ((r : ℤ) + p.1.1).toNat ((c : ℤ) + p.1.2).toNat with
  | none => rfl
  | some nv =>
      by_cases hmv : m.val ((r : ℤ) + p.1.1).toNat ((c : ℤ) + p.1.2).toNat = 1
      · rcases st with ⟨st1, st2⟩
        rcases st1 with - | md
        · by_cases hd : 0 < center - nv <;> simp [hmv, hd, d8Update, minStep]
        · by_cases hd : 0 < center - nv
          · by_cases hd2 : center - nv < md <;> simp [hmv, hd, hd2, d8Update, minStep]
          · simp [hmv, hd, d8Update, minStep]
      · simp [hmv]

lemma foldl_d8Step_eq (w : Grid (Option ℚ)) (m : Grid ℚ) (r c : ℕ) (center : ℚ)
    (L : List ((ℤ × ℤ) × ℕ)) (st : Option ℚ × ℕ) :
    L.foldl (d8Step w m r c center) st =
      (L.filterMap (d8Cand w m r c center)).foldl minStep st := by
  induction L generalizing st with
  | nil => rfl
  | cons p L ih =>
      rw [List.foldl_cons, d8Step_eq]
      cases hc : d8Cand w m r c center p with
      | none => rw [List.filterMap_cons_none hc]; exact ih st
      | some x => rw [List.filterMap_cons_some hc, List.foldl_cons]; exact ih (minStep st x)

lemma foldl_minStep_first_min (K : List (ℚ × ℕ)) (hK : K ≠ []) :
    ∃ l1 x l2, K = l1 ++ x :: l2 ∧
      K.foldl minStep (none, 0) = (some x.1, x.2) ∧
      (∀ y ∈ K, x.1 ≤ y.1) ∧ (∀ y ∈ l1, x.1 < y.1) := by
  induction K using List.reverseRecOn with
  | nil => exact absurd rfl hK
  | append_singleton K z ih =>
      rw [List.foldl_append, List.foldl_cons, List.foldl_nil]
      by_cases hKe : K = []
      · subst hKe
        refine ⟨[], z, [], by simp, rfl, ?_, by simp⟩
        intro y hy
        simp only [List.nil_append, List.mem_singleton] at hy
        exact le_of_eq (congrArg Prod.fst hy.symm)
      · obtain ⟨l1, x, l2, hdec, hfold, hmin, hlt⟩ := ih hKe
        rw [hfold]
        by_cases hz : z.1 < x.1
        · refine ⟨K, z, [], by simp, by simp [minStep, hz], ?_, ?_⟩
          · intro y hy
            rcases List.mem_append.mp hy with hy | hy
            · exact le_of_lt (lt_of_lt_of_le hz (hmin y hy))
            · simp only [List.mem_singleton] at hy
              exact le_of_eq (congrArg Prod.fst hy.symm)
          · intro y hy
            exact lt_of_lt_of_le hz (hmin y hy)
        · refine ⟨l1, x, l2 ++ [z], by rw [hdec]; simp, by simp [minStep, hz], ?_, hlt⟩
          intro y hy
          rcases List.mem_append.mp hy with hy | hy
          · exact hmin y hy
          · simp only [List.mem_singleton] at hy
            rw [hy]
            exact le_of_not_lt hz

/-- Claim C2: on an interior cell with mask 1 and non-NaN elevation, the
solver emits 0 when no neighbor is an eligible downslope candidate, and
otherwise the code of the first candidate attaining the smallest
positive drop, candidates being taken in the fixed clockwise order NW,
N, NE, E, SE, S, SW, W with codes 128, 1, 2, 4, 8, 16, 32, 64; every
candidate strictly earlier than the chosen one has a strictly larger
drop, so a later candidate with an equal drop never replaces the first
minimum. -/
theorem flow_direction_first_min (w : Grid (Option ℚ)) (m : Grid ℚ) (r c : ℕ)
    (center : ℚ) (hr1 : 1 ≤ r) (_hr2 : r + 1 < w.rows) (hc1 : 1 ≤ c) (_hc2 : c + 1 < w.cols)
    (hm : m.val r c = 1) (hcen : w.val r c = some center) :
    (d8Candidates w m r c center = [] →
      (calculate_flow_direction w m).val (r - 1) (c - 1) = 0) ∧
    (d8Candidates w m r c center ≠ [] →
      ∃ l1 x l2, d8Candidates w m r c center = l1 ++ x :: l2 ∧
        (calculate_flow_direction w m).val (r - 1) (c - 1) = x.2 ∧
        (∀ y ∈ d8Candidates w m r c center, x.1 ≤ y.1) ∧
        (∀ y ∈ l1, x.1 < y.1)) := by
  have hr : r - 1 + 1 = r := by omega
  have hc : c - 1 + 1 = c := by omega
  have hcell : (calculate_flow_direction w m).val (r - 1) (c - 1) =
      ((d8Candidates w m r c center).foldl minStep (none, 0)).2 := by
    show flowDirCell w m (r - 1 + 1) (c - 1 + 1) = _
    rw [hr, hc]
    unfold flowDirCell
    rw [hm, hcen]
    simp only [one_ne_zero, if_false]
    rw [foldl_d8Step_eq]
    rfl
  constructor
  · intro hemp
    rw [hcell, hemp]
    rfl
  · intro hne
    obtain ⟨l1, x, l2, hdec, hfold, hmin, hlt⟩ := foldl_minStep_first_min _ hne
    refine ⟨l1, x, l2, hdec, ?_, hmin, hlt⟩
    rw [hcell, hfold]

/-- Flat 3 by 3 elevation window, all cells 7. -/
def wFlat : Grid (Option ℚ) :=
  Grid.ofRows none [[some 7, some 7, some 7], [some 7, some 7, some 7],
    [some 7, some 7, some 7]]

/-- All-land 3 by 3 mask. -/
def mLand3 : Grid ℚ := Grid.ofRows 0 [[1, 1, 1], [1, 1, 1], [1, 1, 1]]

/-- Witness for C2 on a flat 3 by 3 all-land window: no neighbor has a
positive drop, so the single interior cell gets code 0. -/
theorem flow_direction_first_min_witness :
    (calculate_flow_direction wFlat mLand3).val 0 0 = 0 :=
  (flow_direction_first_min wFlat mLand3 1 1 7
    (by decide) (by decide) (by decide) (by decide) (by decide) (by decide)).1
    (by norm_num [d8Candidates, d8Cand, D8_OFFSETS, D8_VALUES, wFlat, mLand3, Grid.ofRows,
      List.zip, List.zipWith, List.getD, List.get?, Int.toNat])

/-- Claim C8: for a window with at least 2 rows and 2 columns, the
solver output has exactly 2 fewer rows and 2 fewer columns than the
input, and each output cell (i, j) holds the code of interior input
cell (i + 1, j + 1); no code is ever produced for a border cell. -/
theorem flow_direction_interior_shape (w : Grid (Option ℚ)) (m : Grid ℚ)
    (h2r : 2 ≤ w.rows) (h2c : 2 ≤ w.cols) :
    (calculate_flow_direction w m).rows + 2 = w.rows ∧
    (calculate_flow_direction w m).cols + 2 = w.cols ∧
    ∀ i, i < (calculate_flow_direction w m).rows →
      ∀ j, j < (calculate_flow_direction w m).cols →
        (calculate_flow_direction w m).val i j = flowDirCell w m (i + 1) (j + 1) := by
  refine ⟨?_, ?_, ?_⟩
  · show w.rows - 2 + 2 = w.rows
    omega
  · show w.cols - 2 + 2 = w.cols
    omega
  · intro i _ j _
    rfl

/-- Witness for C8 on a 3 by 4 window. -/
theorem flow_direction_interior_shape_witness :
    (calculate_flow_direction
      (Grid.ofRows none [[some 1, some 2, some 3, some 4], [some 5, some 6, some 7, some 8],
        [some 9, some 8, some 7, some 6]])
      (Grid.ofRows 0 [[1, 1, 1, 1], [1, 1, 1, 1], [1, 1, 1, 1]])).rows + 2 = 3 ∧
    (calculate_flow_direction
      (Grid.ofRows none [[some 1, some 2, some 3, some 4], [some 5, some 6, some 7, some 8],
        [some 9, some 8, some 7, some 6]])
      (Grid.ofRows 0 [[1, 1, 1, 1], [1, 1, 1, 1], [1, 1, 1, 1]])).cols + 2 = 4 :=
  ⟨(flow_direction_interior_shape _ _ (by decide) (by decide)).1,
   (flow_direction_interior_shape
      (Grid.ofRows none [[some 1, some 2, some 3, some 4], [some 5, some 6, some 7, some 8],
        [some 9, some 8, some 7, some 6]])
      (Grid.ofRows 0 [[1, 1, 1, 1], [1, 1, 1, 1], [1, 1, 1, 1]]) (by decide) (by decide)).2.1⟩

/-- A rasterio window: a rectangular block of a larger grid. -/
structure Window where
  rowOff : ℕ
  colOff : ℕ
  height : ℕ
  width : ℕ

/-- Reading one band restricted to a window (src.read(1, window=window)):
a grid of the window shape whose cells are the source cells at the
window offset. -/
def readWindow {α : Type} (g : Grid α) (win : Window) : Grid α :=
  ⟨win.height, win.width, fun i j => g.val (win.rowOff + i) (win.colOff + j)⟩

/-- process_window of hydrology.py lines 71-76: run the solver on the
window data and return it with its window. -/
def process_window (args : Window × Grid (Option ℚ) × Grid ℚ) : Window × Grid ℕ :=
  (args.1, calculate_flow_direction args.2.1 args.2.2)

/-- The per-tile computation of calculate_flow_direction_parallel,
hydrology.py lines 82-94: the block windows are read without any halo
expansion, every tile is paired with the full-grid mask (the source
passes [mask] * len(windows), not mask slices), and process_window runs
on each tile.  The final loop writes each result into its own window of
the output file, which requires the result to have the window shape;
the divergence theorem below shows the shapes cannot match. -/
def calculate_flow_direction_parallel (src : Grid (Option ℚ)) (windows : List Window)
    (mask : Grid ℚ) : List (Window × Grid ℕ) :=
  (windows.map (fun win => (win, readWindow src win, mask))).map process_window

/-- A 4 by 4 elevation grid sloping down to the southeast, cell (i, j)
holding 10 - i - j. -/
def gSlope4 : Grid (Option ℚ) :=
  Grid.ofRows none [[some 10, some 9, some 8, some 7], [some 9, some 8, some 7, some 6],
    [some 8, some 7, some 6, some 5], [some 7, some 6, some 5, some 4]]

/-- All-land 4 by 4 mask. -/
def mLand4 : Grid ℚ := Grid.ofRows 0 [[1, 1, 1, 1], [1, 1, 1, 1], [1, 1, 1, 1], [1, 1, 1, 1]]

/-- The native tiling of the 4 by 4 grid into two 2-row blocks. -/
def winsTwoBlocks : List Window := [⟨0, 0, 2, 4⟩, ⟨2, 0, 2, 4⟩]

/-- Claim C1 failing input, evaluated: on the 4 by 4 sloped grid tiled
into two 2 by 4 blocks, each worker returns a 0 by 2 grid (the solver
drops the border of the un-haloed block, leaving no rows), so nothing
of window shape 2 by 4 can be written back, while the whole-grid run
returns a 2 by 2 interior whose cell (0, 0) holds code 4; the tiled
output therefore cannot equal the whole-grid output. -/
theorem tiled_engine_unhaloed_blocks_diverge :
    ((calculate_flow_direction_parallel gSlope4 winsTwoBlocks mLand4).map
        (fun p => (p.2.rows, p.2.cols)) = [(0, 2), (0, 2)]) ∧
    (winsTwoBlocks.map (fun win => (win.height, win.width)) = [(2, 4), (2, 4)]) ∧
    (calculate_flow_direction gSlope4 mLand4).rows = 2 ∧
    (calculate_flow_direction gSlope4 mLand4).cols = 2 ∧
    (calculate_flow_direction gSlope4 mLand4).val 0 0 = 4 := by
  refine ⟨by decide, by decide, by decide, by decide, ?_⟩
  norm_num [calculate_flow_direction, flowDirCell, d8Step, d8Update, D8_OFFSETS, D8_VALUES,
    gSlope4, mLand4, Grid.ofRows, List.zip, List.zipWith, List.getD, List.get?, Int.toNat]

/-- The cells of a grid in row-major order, the flattening over which
np.min and np.max range. -/
def gFlat (g : Grid ℚ) : List ℚ :=
  (List.range g.rows).flatMap (fun i => (List.range g.cols).map (fun j => g.val i j))

/-- np.min over a grid; the source never applies it to an empty grid
(numpy would raise), so the empty default 0 is never relied upon. -/
def gMin (g : Grid ℚ) : ℚ :=
  match gFlat g with
  | [] => 0
  | x :: xs => xs.foldl min x

/-- np.max over a grid, same convention as gMin. -/
def gMax (g : Grid ℚ) : ℚ :=
  match gFlat g with
  | [] => 0
  | x :: xs => xs.foldl max x

/-- normalize of hydrology.py lines 96-98:
(array - np.min(array)) / (np.max(array) - np.min(array) + 1e-6),
elementwise with scalar broadcasting. -/
def normalize (array : Grid ℚ) : Grid ℚ :=
  gMap (fun x => (x - gMin array) / (gMax array - gMin array + 1e-6)) array

lemma val_mem_gFlat (g : Grid ℚ) (i j : ℕ) (hi : i < g.rows) (hj : j < g.cols) :
    g.val i j ∈ gFlat g := by
  unfold gFlat
  rw [List.mem_flatMap]
  exact ⟨i, List.mem_range.mpr hi, List.mem_map.mpr ⟨j, List.mem_range.mpr hj, rfl⟩⟩

lemma foldl_min_const (xs : List ℚ) (c : ℚ) (h : ∀ y ∈ xs, y = c) :
    xs.foldl min c = c := by
  induction xs with
  | nil => rfl
  | cons z zs ih =>
      rw [List.foldl_cons, h z (List.mem_cons_self z zs), min_self]
      exact ih (fun y hy => h y (List.mem_cons_of_mem z hy))

lemma foldl_max_const (xs : List ℚ) (c : ℚ) (h : ∀ y ∈ xs, y = c) :
    xs.foldl max c = c := by
  induction xs with
  | nil => rfl
  | cons z zs ih =>
      rw [List.foldl_cons, h z (List.mem_cons_self z zs), max_self]
      exact ih (fun y hy => h y (List.mem_cons_of_mem z hy))

lemma gFlat_all_eq (g : Grid ℚ) (c : ℚ)
    (hc : ∀ i, i < g.rows → ∀ j, j < g.cols → g.val i j = c) :
    ∀ y ∈ gFlat g, y = c := by
  intro y hy
  unfold gFlat at hy
  rw [List.mem_flatMap] at hy
  obtain ⟨i, hi, hy⟩ := hy
  rw [List.mem_map] at hy
  obtain ⟨j, hj, rfl⟩ := hy
  exact hc i (List.mem_range.mp hi) j (List.mem_range.mp hj)

/-- Claim C9: normalizing a non-empty constant-valued grid returns an
all-zero grid of the same shape; the 1e-6 in the denominator prevents a
division by zero from propagating. -/
theorem normalize_constant_grid_zero (g : Grid ℚ) (c : ℚ)
    (h0r : 0 < g.rows) (h0c : 0 < g.cols)
    (hc : ∀ i, i < g.rows → ∀ j, j < g.cols → g.val i j = c) :
    (normalize g).rows = g.rows ∧ (normalize g).cols = g.cols ∧
    ∀ i, i < g.rows → ∀ j, j < g.cols → (normalize g).val i j = 0 := by
  have hall := gFlat_all_eq g c hc
  have hne : g.val 0 0 ∈ gFlat g := val_mem_gFlat g 0 0 h0r h0c
  have hmin : gMin g = c := by
    unfold gMin
    cases h : gFlat g with
    | nil => rw [h] at hne; cases hne
    | cons y ys =>
        have hy : y = c := hall y (by rw [h]; exact List.mem_cons_self y ys)
        subst hy
        exact foldl_min_const ys y (fun z hz => hall z (by rw [h]; exact List.mem_cons_of_mem y hz))
  have hmax : gMax g = c := by
    unfold gMax
    cases h : gFlat g with
    | nil => rw [h] at hne; cases hne
    | cons y ys =>
        have hy : y = c := hall y (by rw [h]; exact List.mem_cons_self y ys)
        subst hy
        exact foldl_max_const ys y (fun z hz => hall z (by rw [h]; exact List.mem_cons_of_mem y hz))
  refine ⟨rfl, rfl, ?_⟩
  intro i hi j hj
  show (g.val i j - gMin g) / (gMax g - gMin g + 1e-6) = 0
  rw [hc i hi j hj, hmin, hmax, sub_self, zero_div]

/-- Witness for C9 on the constant 2 by 2 grid of value 5. -/
theorem normalize_constant_grid_zero_witness :
    (normalize (Grid.ofRows 0 [[5, 5], [5, 5]])).val 0 0 = 0 :=
  (normalize_constant_grid_zero (Grid.ofRows 0 [[5, 5], [5, 5]]) 5
    (by decide) (by decide) (by decide)).2.2 0 (by decide) 0 (by decide)

/-- Outcome of one radar file inside the accumulation loop of
hydrology.py lines 216-225: the file may be missing on disk (the
os.path.exists guard), process_radar_file may return None, or it yields
a runoff grid. -/
inductive FileOutcome where
  | missing : FileOutcome
  | failed : FileOutcome
  | ok : Grid ℚ → FileOutcome

/-- np.zeros_like of a grid. -/
def gZerosLike (g : Grid ℚ) : Grid ℚ := ⟨g.rows, g.cols, fun _ _ => 0⟩

/-- Elementwise += of two grids; the source only adds grids whose equal
shape it has just established (zeros_like, or the explicit check). -/
def gAdd (a b : Grid ℚ) : Grid ℚ := ⟨a.rows, a.cols, fun i j => a.val i j + b.val i j⟩

/-- The accumulation loop of calculate_accumulated_runoff, hydrology.py
lines 216-238, over the per-file outcomes: missing and failed files are
skipped with the loop continuing; the first successful runoff
initializes the running total as zeros of its shape and is added; a
later successful runoff whose shape differs from the running total makes
the whole function return None at once; otherwise it is added.  (The
individual_runoffs list of the source is only printed and is not
modelled.) -/
def accumulateLoop : List FileOutcome → Option (Grid ℚ) → Option (Grid ℚ)
  | [], acc => acc
  | f :: rest, acc =>
      match f with
      | .missing => accumulateLoop rest acc
      | .failed => accumulateLoop rest acc
      | .ok r =>
          match acc with
          | none => accumulateLoop rest (some (gAdd (gZerosLike r) r))
          | some a =>
              if r.shape ≠ a.shape then none
              else accumulateLoop rest (some (gAdd a r))

/-- calculate_accumulated_runoff, hydrology.py lines 204-260: the
returned pair is (returned grid, whether the output raster was
written); the write happens exactly when the loop completes with a
non-None total, and the mid-loop return None on a shape mismatch skips
the write entirely. -/
def calculate_accumulated_runoff (files : List FileOutcome) : Option (Grid ℚ) × Bool :=
  match accumulateLoop files none with
  | some a => (some a, true)
  | none => (none, false)

lemma accumulateLoop_append (pre : List FileOutcome) (ys : List FileOutcome)
    (st : Option (Grid ℚ)) (a : Grid ℚ) (h : accumulateLoop pre st = some a) :
    accumulateLoop (pre ++ ys) st = accumulateLoop ys (some a) := by
  induction pre generalizing st with
  | nil =>
      simp only [accumulateLoop] at h
      rw [List.nil_append, h]
  | cons f pre ih =>
      cases f with
      | missing => exact ih st h
      | failed => exact ih st h
      | ok r =>
          cases st with
          | none => exact ih _ h
          | some aa =>
              by_cases hsh : r.shape ≠ aa.shape
              · rw [show accumulateLoop (FileOutcome.ok r :: pre) (some aa) = none by
                  simp [accumulateLoop, hsh]] at h
                cases h
              · have hstep : accumulateLoop (FileOutcome.ok r :: pre) (some aa) =
                    accumulateLoop pre (some (gAdd aa r)) := by
                  simp [accumulateLoop, hsh]
                rw [hstep] at h
                have : accumulateLoop ((FileOutcome.ok r :: pre) ++ ys) (some aa) =
                    accumulateLoop (pre ++ ys) (some (gAdd aa r)) := by
                  simp [accumulateLoop, hsh]
                rw [this]
                exact ih _ h

lemma accumulateLoop_skip (xs ys : List FileOutcome) (st : Option (Grid ℚ)) :
    accumulateLoop (xs ++ FileOutcome.failed :: ys) st = accumulateLoop (xs ++ ys) st := by
  induction xs generalizing st with
  | nil => rfl
  | cons f xs ih =>
      cases f with
      | missing => exact ih st
      | failed => exact ih st
      | ok r =>
          cases st with
          | none => exact ih _
          | some aa =>
              by_cases hsh : r.shape ≠ aa.shape
              · simp [accumulateLoop, hsh]
              · simp only [List.cons_append, accumulateLoop, if_neg hsh]
                exact ih _

/-- Claim C6: once some prefix of files has produced a running total, a
successfully processed file whose runoff shape differs from that total
aborts the entire accumulation with no returned grid and no written
output, whatever files follow; by contrast a failed (crop/align/runoff
error) file is simply skipped and the run continues as if it were
absent. -/
theorem accumulation_shape_mismatch_aborts (pre : List FileOutcome) (a : Grid ℚ)
    (r : Grid ℚ) (post : List FileOutcome)
    (h1 : accumulateLoop pre none = some a) (h2 : r.shape ≠ a.shape) :
    calculate_accumulated_runoff (pre ++ FileOutcome.ok r :: post) = (none, false) ∧
    ∀ xs ys : List FileOutcome,
      calculate_accumulated_runoff (xs ++ FileOutcome.failed :: ys) =
        calculate_accumulated_runoff (xs ++ ys) := by
  constructor
  · unfold calculate_accumulated_runoff
    rw [accumulateLoop_append pre _ none a h1]
    simp [accumulateLoop, h2]
  · intro xs ys
    unfold calculate_accumulated_runoff
    rw [accumulateLoop_skip]

/-- Witness for C6: after one 1 by 1 file, a 2 by 2 file aborts the
accumulation. -/
theorem accumulation_shape_mismatch_aborts_witness :
    calculate_accumulated_runoff
      ([FileOutcome.ok (Grid.ofRows 0 [[2]])] ++
        FileOutcome.ok (Grid.ofRows 0 [[1, 1], [1, 1]]) :: []) = (none, false) :=
  (accumulation_shape_mismatch_aborts [FileOutcome.ok (Grid.ofRows 0 [[2]])]
    (gAdd (gZerosLike (Grid.ofRows 0 [[2]])) (Grid.ofRows 0 [[2]]))
    (Grid.ofRows 0 [[1, 1], [1, 1]]) [] rfl (by decide)).1

/-- Outcomes of the three stages of process_radar_file: whether
crop_tiff_to_campania succeeds, whether align_radar_to_dem succeeds, and
the result of the runoff step (None when process_tiff raises). -/
structure RadarStepOutcomes where
  crop : Bool
  align : Bool
  runoff : Option (Grid ℚ)

/-- process_radar_file of hydrology.py lines 169-202, with the two
NamedTemporaryFile(delete=False) artifacts tracked explicitly: the
second component is the list of temporary files still existing on disk
when the function returns.  The source removes the files only after all
three steps succeed (lines 199-200); each early return on an exception
leaves every temporary file created so far on disk. -/
def process_radar_file (env : RadarStepOutcomes) : Option (Grid ℚ) × List String :=
  if env.crop = false then (none, ["cropped.tiff"])
  else if env.align = false then (none, ["cropped.tiff", "aligned.tiff"])
  else
    match env.runoff with
    | none => (none, ["cropped.tiff", "aligned.tiff"])
    | some r => (some r, [])

/-- Counterexample to claim C7 as stated: on the crop-failure path the
function returns with the crop temporary file still on disk, so not
every failure path deletes the temporaries created for that file. -/
theorem radar_crop_failure_leaves_temp :
    (process_radar_file ⟨false, true, none⟩).1 = none ∧
    (process_radar_file ⟨false, true, none⟩).2 ≠ [] :=
  ⟨rfl, by decide⟩

/-- Amended claim C7: temporary files are deleted only on the success
path; when crop fails the crop temporary remains on disk, and when crop
succeeds but align or the runoff computation fails both temporaries
remain. -/
theorem radar_cleanup_only_on_success (env : RadarStepOutcomes) :
    ((process_radar_file env).1.isSome = true → (process_radar_file env).2 = []) ∧
    (env.crop = false → (process_radar_file env).2 = ["cropped.tiff"]) ∧
    (env.crop = true → (process_radar_file env).1 = none →
      (process_radar_file env).2 = ["cropped.tiff", "aligned.tiff"]) := by
  obtain ⟨cb, ab, ro⟩ := env
  cases cb <;> cases ab <;> rcases ro with - | r <;>
    simp [process_radar_file]

/-- Witness for the amended claim C7 on a fully successful run: no
temporary file remains. -/
theorem radar_cleanup_only_on_success_witness :
    (process_radar_file ⟨true, true, some (Grid.ofRows 0 [[1]])⟩).2 = [] :=
  (radar_cleanup_only_on_success ⟨true, true, some (Grid.ofRows 0 [[1]])⟩).1 rfl

end FloodRisk
